import Mathlib

/-!
# Verification of the KJSchool authentication system core

A shallow embedding of the validation, credential-verification,
attendance-recording and administration logic of `src/main.py`
(`SchoolAuthSystem`).  GUI construction is not modelled; the database
tables are modelled as Lean lists and each SQL statement as the
corresponding pure list operation.  Python/SQLite text is modelled as
Lean `String` over its character list; the regex class `\d` is embedded
with its full Unicode character set, while Python's `str.strip`, the
class `\s` and `int()` parsing are embedded over their ASCII fragment
(the inputs those paths exercise are ASCII).
-/

set_option maxRecDepth 100000

namespace KJSchool

/-- ASCII decimal digit `0`-`9`. -/
def isAsciiDigit (c : Char) : Bool := '0' ≤ c && c ≤ '9'

/-- ASCII letter, the regex class `[A-Za-z]`. -/
def isAsciiAlpha (c : Char) : Bool := ('A' ≤ c && c ≤ 'Z') || ('a' ≤ c && c ≤ 'z')

/-- The ASCII whitespace characters recognised by Python's `str.strip()`
and the regex class `\s`: space, tab, newline, carriage return,
vertical tab and form feed. -/
def isPySpace (c : Char) : Bool :=
  c == ' ' || c == '\t' || c == '\n' || c == '\x0d' || c == '\x0b' || c == '\x0c'

/-- Remove the longest suffix of `l` whose characters all satisfy `p`. -/
def dropEnd (p : Char → Bool) (l : List Char) : List Char :=
  (l.reverse.dropWhile p).reverse

/-- Python `str.strip()` on the underlying character list: remove leading
and trailing whitespace. -/
def pyStripList (cs : List Char) : List Char :=
  dropEnd isPySpace (cs.dropWhile isPySpace)

/-- Python `str.strip()`. -/
def pyStrip (s : String) : String := ⟨pyStripList s.data⟩

theorem dropWhile_self_idem (p : Char → Bool) :
    ∀ l : List Char, (l.dropWhile p).dropWhile p = l.dropWhile p
  | [] => rfl
  | c :: t => by
    by_cases h : p c
    · simpa [List.dropWhile_cons, h] using dropWhile_self_idem p t
    · simp [List.dropWhile_cons, h]

theorem dropWhile_len_le (p : Char → Bool) :
    ∀ l : List Char, (l.dropWhile p).length ≤ l.length
  | [] => Nat.le_refl _
  | c :: t => by
    by_cases h : p c
    · rw [List.dropWhile_cons_of_pos h]
      exact Nat.le_succ_of_le (dropWhile_len_le p t)
    · rw [List.dropWhile_cons_of_neg h]

theorem dropWhile_append_self (p : Char → Bool) (n t : List Char)
    (h : (n ++ t).dropWhile p = n ++ t) : n.dropWhile p = n := by
  cases n with
  | nil => rfl
  | cons c n' =>
    by_cases hp : p c
    · exfalso
      rw [List.cons_append, List.dropWhile_cons_of_pos hp] at h
      have hlen := congrArg List.length h
      have hle := dropWhile_len_le p (n' ++ t)
      simp [List.length_append] at hlen hle
      omega
    · simp [List.dropWhile_cons, hp]

theorem dropEnd_idem (p : Char → Bool) (l : List Char) :
    dropEnd p (dropEnd p l) = dropEnd p l := by
  unfold dropEnd
  rw [List.reverse_reverse, dropWhile_self_idem]

theorem dropEnd_append_eq (p : Char → Bool) (l : List Char) :
    l = dropEnd p l ++ (l.reverse.takeWhile p).reverse := by
  unfold dropEnd
  rw [← List.reverse_append, List.takeWhile_append_dropWhile, List.reverse_reverse]

theorem pyStripList_idem (cs : List Char) :
    pyStripList (pyStripList cs) = pyStripList cs := by
  unfold pyStripList
  set m := cs.dropWhile isPySpace with hm
  have hmfix : m.dropWhile isPySpace = m := dropWhile_self_idem isPySpace cs
  have hsub : (dropEnd isPySpace m).dropWhile isPySpace = dropEnd isPySpace m := by
    apply dropWhile_append_self isPySpace _ ((m.reverse.takeWhile isPySpace).reverse)
    rw [← dropEnd_append_eq]
    exact hmfix
  rw [hsub, dropEnd_idem]

theorem pyStrip_idem (s : String) : pyStrip (pyStrip s) = pyStrip s :=
  congrArg String.mk (pyStripList_idem s.data)

/-! ## Validators (`validate_student_id`, `validate_teacher_id`,
`validate_name`, the inline age check, class membership) -/

/-- Where the anchor `$` of a Python (non-MULTILINE) regex matches: at the
end of the string, or just before a single newline that ends the string. -/
def reDollarEnd : List Char → Bool
  | [] => true
  | ['\n'] => true
  | _ => false

/-- The codepoint ranges of the Unicode decimal digits (general category
Nd, Unicode 14.0 as shipped with Python 3.11): 660 characters in 62
runs, each script's digit row.  This is the character set Python's `\d`
matches in a `str` pattern compiled without `re.ASCII`. -/
def ndDigitRanges : List (Nat × Nat) :=
  [(48, 57), (1632, 1641), (1776, 1785), (1984, 1993),
   (2406, 2415), (2534, 2543), (2662, 2671), (2790, 2799),
   (2918, 2927), (3046, 3055), (3174, 3183), (3302, 3311),
   (3430, 3439), (3558, 3567), (3664, 3673), (3792, 3801),
   (3872, 3881), (4160, 4169), (4240, 4249), (6112, 6121),
   (6160, 6169), (6470, 6479), (6608, 6617), (6784, 6793),
   (6800, 6809), (6992, 7001), (7088, 7097), (7232, 7241),
   (7248, 7257), (42528, 42537), (43216, 43225), (43264, 43273),
   (43472, 43481), (43504, 43513), (43600, 43609), (44016, 44025),
   (65296, 65305), (66720, 66729), (68912, 68921), (69734, 69743),
   (69872, 69881), (69942, 69951), (70096, 70105), (70384, 70393),
   (70736, 70745), (70864, 70873), (71248, 71257), (71360, 71369),
   (71472, 71481), (71904, 71913), (72016, 72025), (72784, 72793),
   (73040, 73049), (73120, 73129), (92768, 92777), (92864, 92873),
   (93008, 93017), (120782, 120831), (123200, 123209), (123632, 123641),
   (125264, 125273), (130032, 130041)]

/-- The regex class `\d` of a Python `str` pattern: any Unicode decimal
digit (category Nd), not only ASCII `0`-`9`. -/
def isPyDigit (c : Char) : Bool :=
  ndDigitRanges.any (fun p => p.1 ≤ c.toNat && c.toNat ≤ p.2)

/-- `\d{n}` followed by the `$` anchor: exactly `n` Unicode decimal
digits and then the end of the string (allowing Python's
trailing-newline `$`). -/
def digitsThenEnd : Nat → List Char → Bool
  | 0, cs => reDollarEnd cs
  | _ + 1, [] => false
  | n + 1, c :: cs => isPyDigit c && digitsThenEnd n cs

/-- `re.match(r'^KJ\d{4}\d{4}$', student_id)` (main.py lines 124-126). -/
def validate_student_id (s : String) : Bool :=
  match s.data with
  | 'K' :: 'J' :: rest => digitsThenEnd 8 rest
  | _ => false

/-- `re.match(r'^TJ\d{4}\d{4}$', teacher_id)` (main.py lines 128-130). -/
def validate_teacher_id (s : String) : Bool :=
  match s.data with
  | 'T' :: 'J' :: rest => digitsThenEnd 8 rest
  | _ => false

/-- `re.match(r'^[A-Za-z\s]+$', name.strip())` (main.py lines 132-134).
Since `\n` is itself in the class `\s`, the trailing-newline behaviour of
`$` adds nothing here: the regex accepts exactly the nonempty strings of
letters and whitespace. -/
def validate_name (s : String) : Bool :=
  let cs := pyStripList s.data
  !cs.isEmpty && cs.all (fun c => isAsciiAlpha c || isPySpace c)

/-- Numeric value of an ASCII digit. -/
def digitVal (c : Char) : Nat := c.toNat - 48

/-- Digits of a Python integer literal after the first one: a run of ASCII
digits in which single underscores may separate two digits
(`int("1_2") = 12`), accumulating the value. -/
def parseDigitsGo (acc : Nat) : List Char → Option Nat
  | [] => some acc
  | '_' :: c :: rest =>
    if isAsciiDigit c then parseDigitsGo (acc * 10 + digitVal c) rest else none
  | ['_'] => none
  | c :: rest =>
    if isAsciiDigit c then parseDigitsGo (acc * 10 + digitVal c) rest else none

/-- Python `int(s)` on a decimal string: surrounding whitespace ignored,
optional sign, then a nonempty digit run (with optional single
underscores between digits); anything else raises `ValueError`,
modelled as `none`.  Embedded over ASCII digits (Python would also
accept other Unicode decimal digits). -/
def parsePyInt (s : String) : Option Int :=
  match pyStripList s.data with
  | '+' :: c :: rest =>
    if isAsciiDigit c then (parseDigitsGo (digitVal c) rest).map (fun n => (n : Int)) else none
  | '-' :: c :: rest =>
    if isAsciiDigit c then (parseDigitsGo (digitVal c) rest).map (fun n => -(n : Int)) else none
  | c :: rest =>
    if isAsciiDigit c then (parseDigitsGo (digitVal c) rest).map (fun n => (n : Int)) else none
  | [] => none

/-- The age check inlined at main.py lines 429-436 and 876-882:
`age = int(age)` followed by `11 <= age <= 18`, with `ValueError`
(either from parsing or from the explicit range raise) caught and
reported as a validation failure. -/
def validate_age (a : String) : Bool :=
  match parsePyInt a with
  | none => false
  | some n => decide (11 ≤ n ∧ n ≤ 18)

/-- `self.valid_classes` (main.py lines 46-50). -/
def valid_classes : List String :=
  ["7A", "7B", "7C", "8A", "8B", "8C",
   "9A", "9B", "9C", "10A", "10B", "10C",
   "11A", "11B", "11C", "12A", "12B", "13A"]

/-- The class membership check `class_name in self.valid_classes`
(main.py line 425). -/
def validate_class (c : String) : Bool := valid_classes.contains c

example : validate_student_id "KJ20240001" = true := by decide
example : validate_student_id "KJ2024001" = false := by decide
example : validate_student_id "kj20240001" = false := by decide
example : validate_student_id "KJ20240001 " = false := by decide
example : validate_student_id "KJ20240001\n" = true := by decide
example : validate_student_id "KJ٠٠٠٠٠٠٠٠" = true := by decide
example : validate_student_id "KJ2024000١" = true := by decide
example : validate_teacher_id "TJ20240001" = true := by decide
example : validate_name "Mary Jane" = true := by decide
example : validate_name "  Mary  " = true := by decide
example : validate_name "R2D2" = false := by decide
example : validate_name "" = false := by decide
example : parsePyInt "12" = some 12 := by decide
example : parsePyInt "+12" = some 12 := by decide
example : parsePyInt "-3" = some (-3) := by decide
example : parsePyInt "1_2" = some 12 := by decide
example : parsePyInt "1__2" = none := by decide
example : parsePyInt "_1" = none := by decide
example : parsePyInt "1_" = none := by decide
example : parsePyInt "twelve" = none := by decide
example : parsePyInt "" = none := by decide
example : validate_age "11" = true := by decide
example : validate_age "18" = true := by decide
example : validate_age "10" = false := by decide
example : validate_age "19" = false := by decide
example : validate_class "10C" = true := by decide
example : validate_class "12C" = false := by decide

/-! ## `hash_password` (main.py lines 121-122):
`hashlib.sha256(password.encode()).hexdigest()`.
SHA-256 is embedded over `Nat` with explicit reduction modulo `2 ^ 32`;
bytes are `Nat` values; `password.encode()` is UTF-8 encoding. -/

/-- UTF-8 encoding of one character (Python `str.encode()`). -/
def utf8EncodeChar (c : Char) : List Nat :=
  let n := c.toNat
  if n < 128 then [n]
  else if n < 2048 then [192 ||| (n >>> 6), 128 ||| (n &&& 63)]
  else if n < 65536 then
    [224 ||| (n >>> 12), 128 ||| ((n >>> 6) &&& 63), 128 ||| (n &&& 63)]
  else
    [240 ||| (n >>> 18), 128 ||| ((n >>> 12) &&& 63),
     128 ||| ((n >>> 6) &&& 63), 128 ||| (n &&& 63)]

/-- UTF-8 bytes of a string (Python `str.encode()`). -/
def utf8Bytes (s : String) : List Nat := s.data.flatMap utf8EncodeChar

/-- Addition of 32-bit words. -/
def add32 (a b : Nat) : Nat := (a + b) % 4294967296

/-- Right rotation of a 32-bit word by `n` bits. -/
def rotr32 (n x : Nat) : Nat := ((x >>> n) ||| (x <<< (32 - n))) % 4294967296

/-- SHA-256 `Ch(x,y,z) = (x AND y) XOR (NOT x AND z)` on 32-bit words. -/
def shaCh (x y z : Nat) : Nat := (x &&& y) ^^^ ((x ^^^ 4294967295) &&& z)

/-- SHA-256 `Maj(x,y,z)`. -/
def shaMaj (x y z : Nat) : Nat := (x &&& y) ^^^ (x &&& z) ^^^ (y &&& z)

/-- SHA-256 `Σ0`. -/
def bigSigma0 (x : Nat) : Nat := rotr32 2 x ^^^ rotr32 13 x ^^^ rotr32 22 x

/-- SHA-256 `Σ1`. -/
def bigSigma1 (x : Nat) : Nat := rotr32 6 x ^^^ rotr32 11 x ^^^ rotr32 25 x

/-- SHA-256 `σ0`. -/
def smallSigma0 (x : Nat) : Nat := rotr32 7 x ^^^ rotr32 18 x ^^^ (x >>> 3)

/-- SHA-256 `σ1`. -/
def smallSigma1 (x : Nat) : Nat := rotr32 17 x ^^^ rotr32 19 x ^^^ (x >>> 10)

/-- The 64 SHA-256 round constants (the fractional parts of the cube
roots of the first 64 primes, as 32-bit words, here in decimal). -/
def kWords : List Nat :=
  [1116352408, 1899447441, 3049323471, 3921009573, 961987163, 1508970993,
   2453635748, 2870763221, 3624381080, 310598401, 607225278, 1426881987,
   1925078388, 2162078206, 2614888103, 3248222580, 3835390401, 4022224774,
   264347078, 604807628, 770255983, 1249150122, 1555081692, 1996064986,
   2554220882, 2821834349, 2952996808, 3210313671, 3336571891, 3584528711,
   113926993, 338241895, 666307205, 773529912, 1294757372, 1396182291,
   1695183700, 1986661051, 2177026350, 2456956037, 2730485921, 2820302411,
   3259730800, 3345764771, 3516065817, 3600352804, 4094571909, 275423344,
   430227734, 506948616, 659060556, 883997877, 958139571, 1322822218,
   1537002063, 1747873779, 1955562222, 2024104815, 2227730452, 2361852424,
   2428436474, 2756734187, 3204031479, 3329325298]

/-- Eight 32-bit words: the SHA-256 state (and its working variables
`a`-`h` during compression). -/
structure Hash8 where
  h0 : Nat
  h1 : Nat
  h2 : Nat
  h3 : Nat
  h4 : Nat
  h5 : Nat
  h6 : Nat
  h7 : Nat
deriving Repr, DecidableEq

/-- The SHA-256 initial hash value (the fractional parts of the square
roots of the first 8 primes, as 32-bit words, here in decimal). -/
def initHash : Hash8 :=
  ⟨1779033703, 3144134277, 1013904242, 2773480762,
   1359893119, 2600822924, 528734635, 1541459225⟩

/-- Big-endian 8-byte encoding of the message bit length. -/
def lenBytes (n : Nat) : List Nat :=
  [n >>> 56 &&& 255, n >>> 48 &&& 255, n >>> 40 &&& 255, n >>> 32 &&& 255,
   n >>> 24 &&& 255, n >>> 16 &&& 255, n >>> 8 &&& 255, n &&& 255]

/-- SHA-256 padding: append `0x80`, zero bytes to 56 mod 64, then the
bit length as 8 big-endian bytes. -/
def sha256Pad (msg : List Nat) : List Nat :=
  msg ++ 128 :: List.replicate ((119 - msg.length % 64) % 64) 0 ++ lenBytes (msg.length * 8)

/-- Big-endian grouping of bytes into 32-bit words. -/
def bytesToWords : List Nat → List Nat
  | b0 :: b1 :: b2 :: b3 :: rest =>
    (b0 * 16777216 + b1 * 65536 + b2 * 256 + b3) :: bytesToWords rest
  | _ => []

/-- Extend the 16 block words to the 64-entry message schedule. -/
def msgSchedule (w16 : List Nat) : Array Nat :=
  (List.range 48).foldl
    (fun ws i =>
      ws.push (add32 (add32 (smallSigma1 (ws.getD (i + 14) 0)) (ws.getD (i + 9) 0))
                     (add32 (smallSigma0 (ws.getD (i + 1) 0)) (ws.getD i 0))))
    w16.toArray

/-- One SHA-256 round on the working variables. -/
def shaRound (w : Array Nat) (t : Hash8) (i : Nat) : Hash8 :=
  let t1 := add32 t.h7 (add32 (bigSigma1 t.h4)
              (add32 (shaCh t.h4 t.h5 t.h6) (add32 (kWords.getD i 0) (w.getD i 0))))
  let t2 := add32 (bigSigma0 t.h0) (shaMaj t.h0 t.h1 t.h2)
  ⟨add32 t1 t2, t.h0, t.h1, t.h2, add32 t.h3 t1, t.h4, t.h5, t.h6⟩

/-- SHA-256 compression of one 64-byte block into the running state. -/
def sha256Compress (st : Hash8) (block : List Nat) : Hash8 :=
  let w := msgSchedule (bytesToWords block)
  let t := (List.range 64).foldl (shaRound w) st
  ⟨add32 st.h0 t.h0, add32 st.h1 t.h1, add32 st.h2 t.h2, add32 st.h3 t.h3,
   add32 st.h4 t.h4, add32 st.h5 t.h5, add32 st.h6 t.h6, add32 st.h7 t.h7⟩

/-- Split a byte list into successive 64-byte blocks; the first argument
is recursion fuel, sufficient whenever it is at least the list length. -/
def chunks64Go : Nat → List Nat → List (List Nat)
  | 0, _ => []
  | _ + 1, [] => []
  | fuel + 1, b :: rest => (b :: rest).take 64 :: chunks64Go fuel ((b :: rest).drop 64)

/-- Split a byte list into successive 64-byte blocks. -/
def chunks64 (l : List Nat) : List (List Nat) := chunks64Go l.length l

/-- SHA-256 of a byte sequence, as the final eight-word state. -/
def sha256 (msg : List Nat) : Hash8 :=
  (chunks64 (sha256Pad msg)).foldl sha256Compress initHash

/-- Lowercase hexadecimal rendering of a 32-bit word, 8 characters. -/
def toHex8 (w : Nat) : List Char :=
  [Nat.digitChar (w >>> 28 &&& 15), Nat.digitChar (w >>> 24 &&& 15),
   Nat.digitChar (w >>> 20 &&& 15), Nat.digitChar (w >>> 16 &&& 15),
   Nat.digitChar (w >>> 12 &&& 15), Nat.digitChar (w >>> 8 &&& 15),
   Nat.digitChar (w >>> 4 &&& 15), Nat.digitChar (w &&& 15)]

/-- `hexdigest()` of a SHA-256 state: the 32 digest bytes, i.e. the eight
big-endian state words, in lowercase hexadecimal. -/
def hexOfState (st : Hash8) : List Char :=
  toHex8 st.h0 ++ toHex8 st.h1 ++ toHex8 st.h2 ++ toHex8 st.h3 ++
  toHex8 st.h4 ++ toHex8 st.h5 ++ toHex8 st.h6 ++ toHex8 st.h7

/-- `hash_password` (main.py lines 121-122):
`hashlib.sha256(password.encode()).hexdigest()`. -/
def hash_password (password : String) : String :=
  ⟨hexOfState (sha256 (utf8Bytes password))⟩

example : hash_password "" =
    "e3b0c44298fc1c149afbf4c8996fb92427ae41e4649b934ca495991b7852b855" := by rfl
example : hash_password "abc" =
    "ba7816bf8f01cfea414140de5dae2223b00361a396177a9cb410ff61f20015ad" := by rfl
example : hash_password "The quick brown fox jumps over the lazy dog. 0123456789 ABCDEF" =
    "d01b4752e0cb8b0517cc0b4614a7ebe25ed3b9fd3d0033d997390da4fadf17de" := by rfl

/-! ## Data model: the four SQLite tables (main.py lines 55-94) as lists -/

/-- A row of the `students` table. -/
structure Student where
  student_id : String
  name : String
  age : Int
  class_name : String
  password_hash : String
  created_at : String
  last_login : Option String
deriving Repr, DecidableEq

/-- A row of the `attendance` table (the AUTOINCREMENT surrogate key is
not modelled; rows are kept in insertion order). -/
structure AttendanceRow where
  student_id : String
  name : String
  class_name : String
  login_time : String
  status : String
deriving Repr, DecidableEq

/-- A row of the `teachers` table. -/
structure Teacher where
  teacher_id : String
  name : String
  password_hash : String
  created_at : String
deriving Repr, DecidableEq

/-- A row of the `admin_logs` table. -/
structure AdminLogEntry where
  action : String
  details : String
  timestamp : String
deriving Repr, DecidableEq

/-- The database: the four tables, each as a list of rows in insertion
order. -/
structure DB where
  students : List Student
  attendance : List AttendanceRow
  teachers : List Teacher
  admin_logs : List AdminLogEntry
deriving Repr, DecidableEq

/-! ## Operations -/

/-- Outcome reported by `verify_student_login` through message boxes. -/
inductive StudentLoginResult where
  | missingFields
  | invalidId
  | invalidName
  | invalidClass
  | invalidAge
  | success
  | invalidCredentials
deriving Repr, DecidableEq

/-- The five-field WHERE clause of the student lookup
(main.py lines 438-442). -/
def studentMatches (r : Student) (student_id name : String) (age : Int)
    (class_name password_hash : String) : Bool :=
  r.student_id == student_id && r.name == name && r.age == age &&
  r.class_name == class_name && r.password_hash == password_hash

/-- `verify_student_login` (main.py lines 407-463) after the initial
`.strip()` of each field: required-field check, format checks, class
membership, age parse and range, then the exact five-field lookup; on a
hit, `last_login` is set for the row with that id and one attendance row
with status `"Present"` is inserted.  `now1`/`now2` are the two
`datetime.now()` timestamp strings. -/
def verify_student_login_core (db : DB)
    (student_id name age class_name password now1 now2 : String) :
    DB × StudentLoginResult :=
  if student_id == "" || name == "" || age == "" || class_name == "" || password == "" then
    (db, .missingFields)
  else if !validate_student_id student_id then (db, .invalidId)
  else if !validate_name name then (db, .invalidName)
  else if !validate_class class_name then (db, .invalidClass)
  else
    match parsePyInt age with
    | none => (db, .invalidAge)
    | some n =>
      if !(decide (11 ≤ n ∧ n ≤ 18)) then (db, .invalidAge)
      else if db.students.any (fun r =>
          studentMatches r student_id name n class_name (hash_password password)) then
        ({ db with
            students := db.students.map (fun r =>
              if r.student_id == student_id then { r with last_login := some now1 } else r),
            attendance := db.attendance ++
              [⟨student_id, name, class_name, now2, "Present"⟩] },
         .success)
      else (db, .invalidCredentials)

/-- `verify_student_login` (main.py lines 407-463): each entry value is
stripped (lines 408-412) and the core logic runs on the stripped
values. -/
def verify_student_login (db : DB)
    (student_id name age class_name password now1 now2 : String) :
    DB × StudentLoginResult :=
  verify_student_login_core db (pyStrip student_id) (pyStrip name) (pyStrip age)
    (pyStrip class_name) (pyStrip password) now1 now2

/-- Outcome reported by `verify_teacher_login`. -/
inductive TeacherLoginResult where
  | missingFields
  | invalidId
  | invalidName
  | success
  | invalidCredentials
deriving Repr, DecidableEq

/-- The three-field WHERE clause of the teacher lookup
(main.py lines 482-485). -/
def teacherMatches (r : Teacher) (teacher_id name password_hash : String) : Bool :=
  r.teacher_id == teacher_id && r.name == name && r.password_hash == password_hash

/-- `verify_teacher_login` (main.py lines 465-496) after stripping:
teacher login mutates no table. -/
def verify_teacher_login_core (db : DB) (teacher_id name password : String) :
    TeacherLoginResult :=
  if teacher_id == "" || name == "" || password == "" then .missingFields
  else if !validate_teacher_id teacher_id then .invalidId
  else if !validate_name name then .invalidName
  else if db.teachers.any (fun r =>
      teacherMatches r teacher_id name (hash_password password)) then .success
  else .invalidCredentials

/-- `verify_teacher_login` (main.py lines 465-496). -/
def verify_teacher_login (db : DB) (teacher_id name password : String) :
    TeacherLoginResult :=
  verify_teacher_login_core db (pyStrip teacher_id) (pyStrip name) (pyStrip password)

/-- Outcome reported by `verify_admin_login`. -/
inductive AdminLoginResult where
  | missingPassword
  | success
  | invalidPassword
deriving Repr, DecidableEq

/-- `verify_admin_login` (main.py lines 498-511) after stripping: the
hash of the entered password is compared with the configured
`admin_password` hash. -/
def verify_admin_login_core (admin_password_hash password : String) :
    AdminLoginResult :=
  if password == "" then .missingPassword
  else if hash_password password == admin_password_hash then .success
  else .invalidPassword

/-- `verify_admin_login` (main.py lines 498-511). -/
def verify_admin_login (admin_password_hash password : String) : AdminLoginResult :=
  verify_admin_login_core admin_password_hash (pyStrip password)

/-- Outcome reported by `register_student` / `register_teacher`. -/
inductive RegisterResult where
  | missingFields
  | invalidId
  | invalidName
  | invalidAge
  | duplicateId
  | success
deriving Repr, DecidableEq

/-- `register_student` (main.py lines 861-905) after stripping: required
fields, id format, name format and age are validated; the class field is
NOT checked against `valid_classes` (no such check exists in the source;
compare line 425 in the login path).  The `INSERT` raising
`sqlite3.IntegrityError` on a duplicate primary key is modelled as the
duplicate-id test; on success the student row (with `created_at = now1`,
`last_login = NULL`) and one admin-log row are inserted. -/
def register_student_core (db : DB)
    (student_id name age class_name password now1 now2 : String) :
    DB × RegisterResult :=
  if student_id == "" || name == "" || age == "" || class_name == "" || password == "" then
    (db, .missingFields)
  else if !validate_student_id student_id then (db, .invalidId)
  else if !validate_name name then (db, .invalidName)
  else
    match parsePyInt age with
    | none => (db, .invalidAge)
    | some n =>
      if !(decide (11 ≤ n ∧ n ≤ 18)) then (db, .invalidAge)
      else if db.students.any (fun r => r.student_id == student_id) then
        (db, .duplicateId)
      else
        ({ db with
            students := db.students ++
              [⟨student_id, name, n, class_name, hash_password password, now1, none⟩],
            admin_logs := db.admin_logs ++
              [⟨"Register Student", "Registered student " ++ student_id, now2⟩] },
         .success)

/-- `register_student` (main.py lines 861-905). -/
def register_student (db : DB)
    (student_id name age class_name password now1 now2 : String) :
    DB × RegisterResult :=
  register_student_core db (pyStrip student_id) (pyStrip name) (pyStrip age)
    (pyStrip class_name) (pyStrip password) now1 now2

/-- `register_teacher` (main.py lines 959-990) after stripping. -/
def register_teacher_core (db : DB) (teacher_id name password now1 now2 : String) :
    DB × RegisterResult :=
  if teacher_id == "" || name == "" || password == "" then (db, .missingFields)
  else if !validate_teacher_id teacher_id then (db, .invalidId)
  else if !validate_name name then (db, .invalidName)
  else if db.teachers.any (fun r => r.teacher_id == teacher_id) then (db, .duplicateId)
  else
    ({ db with
        teachers := db.teachers ++ [⟨teacher_id, name, hash_password password, now1⟩],
        admin_logs := db.admin_logs ++
          [⟨"Register Teacher", "Registered teacher " ++ teacher_id, now2⟩] },
     .success)

/-- `register_teacher` (main.py lines 959-990). -/
def register_teacher (db : DB) (teacher_id name password now1 now2 : String) :
    DB × RegisterResult :=
  register_teacher_core db (pyStrip teacher_id) (pyStrip name) (pyStrip password) now1 now2

/-- `delete_student` (main.py lines 754-775), given the selected
student id: delete the student row, delete that student's attendance
rows, insert one admin-log row. -/
def delete_student (db : DB) (student_id now : String) : DB :=
  { db with
      students := db.students.filter (fun r => !(r.student_id == student_id)),
      attendance := db.attendance.filter (fun r => !(r.student_id == student_id)),
      admin_logs := db.admin_logs ++
        [⟨"Delete Student", "Deleted student " ++ student_id, now⟩] }

/-! ## The attendance date query
(`WHERE login_time LIKE ? ORDER BY login_time DESC`, main.py lines
610-619 and 677-693) -/

/-- SQLite's ASCII case folding used by `LIKE`: the codepoint of an
uppercase ASCII letter is mapped to its lowercase counterpart. -/
def charFoldN (n : Nat) : Nat := if 65 ≤ n ∧ n ≤ 90 then n + 32 else n

/-- SQLite `LIKE`: `%` matches any sequence (any suffix of the remaining
text may be left for the rest of the pattern), `_` any single character,
every other pattern character matches ASCII-case-insensitively. -/
def likeMatch : List Char → List Char → Bool
  | [], s => s.isEmpty
  | pc :: ps, s =>
    if pc = '%' then s.tails.any (fun t => likeMatch ps t)
    else
      match s with
      | [] => false
      | x :: s' =>
        (if pc = '_' then true else charFoldN pc.toNat == charFoldN x.toNat) &&
        likeMatch ps s'

/-- Bytewise (equivalently, codepoint-lexicographic) string order: the
`BINARY` collation SQLite uses for `ORDER BY` on a `TEXT` column. -/
def charListLe : List Char → List Char → Bool
  | [], _ => true
  | _ :: _, [] => false
  | a :: as, b :: bs => decide (a < b) || (a == b && charListLe as bs)

/-- `ORDER BY login_time DESC`: row `a` may come before row `b` exactly
when `b.login_time ≤ a.login_time`. -/
def loginTimeDesc (a b : AttendanceRow) : Prop :=
  charListLe b.login_time.data a.login_time.data = true

instance : DecidableRel loginTimeDesc := fun a b =>
  inferInstanceAs (Decidable (charListLe b.login_time.data a.login_time.data = true))

/-- The attendance query for a calendar date (main.py lines 610-619 and
682-693): `SELECT ... FROM attendance WHERE login_time LIKE '<d>%'
ORDER BY login_time DESC`.  SQLite's sorting algorithm is modelled by
insertion sort; ties between equal `login_time` values are returned in
an unspecified order by SQLite, and any sort that is ordered by
`loginTimeDesc` and permutes the filtered rows is a faithful model. -/
def query_attendance_for_date (att : List AttendanceRow) (d : String) :
    List AttendanceRow :=
  (att.filter (fun r => likeMatch (d.data ++ ['%']) r.login_time.data)).insertionSort
    loginTimeDesc

/-- The calendar-date part of a `"YYYY-MM-DD HH:MM:SS"` timestamp: its
first ten characters. -/
def dateOfTimestamp (s : String) : String := ⟨s.data.take 10⟩

/-- Characters a `"YYYY-MM-DD"` date string is made of: ASCII digits and
the hyphen. -/
def isDateChar (c : Char) : Bool := (48 ≤ c.toNat && c.toNat ≤ 57) || c.toNat == 45

example :
    query_attendance_for_date
      [⟨"KJ00000001", "Ann", "7A", "2024-01-01 09:00:00", "Present"⟩,
       ⟨"KJ00000002", "Bob", "7B", "2024-01-02 08:00:00", "Present"⟩,
       ⟨"KJ00000003", "Cal", "7C", "2024-01-02 09:30:00", "Present"⟩]
      "2024-01-02" =
    [⟨"KJ00000003", "Cal", "7C", "2024-01-02 09:30:00", "Present"⟩,
     ⟨"KJ00000002", "Bob", "7B", "2024-01-02 08:00:00", "Present"⟩] := by
  decide

/-! ## Helper lemmas -/

theorem char_toNat_inj {a b : Char} (h : a.toNat = b.toNat) : a = b := by
  cases a with
  | mk va ha =>
    cases b with
    | mk vb hb =>
      congr 1
      cases va; cases vb
      congr 1
      exact BitVec.eq_of_toNat_eq h

theorem char_lt_iff (a b : Char) : a < b ↔ a.toNat < b.toNat := by
  cases a; cases b; rfl

/-- `validate_age` is the age parse plus the 11-18 range test. -/
theorem validate_age_iff (a : String) :
    validate_age a = true ↔ ∃ n : Int, parsePyInt a = some n ∧ 11 ≤ n ∧ n ≤ 18 := by
  unfold validate_age
  cases h : parsePyInt a with
  | none => simp
  | some n => simp [decide_eq_true_eq]

/-! ## Claim C3: the class enumeration -/

/-- The class set exactly as the claim words it: year groups 7-13, each
with sub-sections A, B and C, except year 13 which has only section A. -/
def claimClassEnum : List String :=
  (["7", "8", "9", "10", "11", "12"].flatMap (fun y => [y ++ "A", y ++ "B", y ++ "C"])) ++
  ["13A"]

/-- The class labels actually accepted: year groups 7-11 with sub-sections
A, B and C, year 12 with only A and B, year 13 with only A. -/
def actualClassEnum : List String :=
  (["7", "8", "9", "10", "11"].flatMap (fun y => [y ++ "A", y ++ "B", y ++ "C"])) ++
  ["12A", "12B", "13A"]

/-- C3 counterexample: the claim's enumeration (years 7-13 with A/B/C,
year 13 only A) contains "12C", but the program's class check rejects
"12C"; the claim's enumeration moreover has 19 elements, not 18. -/
theorem c3_counterexample :
    "12C" ∈ claimClassEnum ∧ validate_class "12C" = false ∧
    claimClassEnum.length = 19 := by
  refine ⟨?_, by decide, by decide⟩
  decide

/-- C3 (amended): `validate_class` accepts exactly the fixed 18-element
enumeration consisting of year groups 7-11 with sub-sections A/B/C,
year 12 with sub-sections A/B only, and year 13 with section A only. -/
theorem c3_validate_class_enum :
    (∀ c : String, validate_class c = true ↔ c ∈ actualClassEnum) ∧
    valid_classes.length = 18 := by
  refine ⟨fun c => ?_, by decide⟩
  have h : actualClassEnum = valid_classes := by decide
  rw [h]
  unfold validate_class
  simp [List.contains_eq_any_beq, List.any_eq_true, beq_iff_eq, eq_comm]

/-! ## Claim C4: the student-id format -/

/-- The student-id format exactly as the claim words it: the two
characters `KJ` followed by exactly 8 digits (`0`-`9`, as in the
claim's examples) and nothing else. -/
def claimStudentIdFormat (s : String) : Bool :=
  match s.data with
  | 'K' :: 'J' :: rest => rest.length == 8 && rest.all isAsciiDigit
  | _ => false

/-- C4 counterexample, two independent divergences from the claim's
characterization.  First, Python's `$` anchor also matches just before a
newline that ends the string, so `re.match(r'^KJ\d{4}\d{4}$', s)`
accepts `"KJ20240001\n"`, a string with a trailing character after the
8 digits, which the claim says is rejected.  Second, `\d` in a Python
`str` pattern matches any Unicode decimal digit, so the eight
Arabic-Indic digits in `"KJ٠٠٠٠٠٠٠٠"` are accepted although the string
is not `KJ` followed by 8 digits `0`-`9`. -/
theorem c4_counterexample :
    (validate_student_id "KJ20240001\n" = true ∧
     claimStudentIdFormat "KJ20240001\n" = false) ∧
    (validate_student_id "KJ٠٠٠٠٠٠٠٠" = true ∧
     claimStudentIdFormat "KJ٠٠٠٠٠٠٠٠" = false) := by
  exact ⟨⟨by decide, by decide⟩, ⟨by decide, by decide⟩⟩

theorem reDollarEnd_iff (r : List Char) :
    reDollarEnd r = true ↔ r = [] ∨ r = ['\n'] := by
  match r with
  | [] => simp [reDollarEnd]
  | [x] =>
    by_cases h : x = '\n'
    · subst h; simp [reDollarEnd]
    · simp [reDollarEnd, h]
  | x :: y :: t => simp [reDollarEnd]

theorem digitsThenEnd_iff (n : Nat) (cs : List Char) :
    digitsThenEnd n cs = true ↔
      ∃ ds rest, cs = ds ++ rest ∧ ds.length = n ∧ ds.all isPyDigit = true ∧
        reDollarEnd rest = true := by
  induction n generalizing cs with
  | zero =>
    simp only [digitsThenEnd]
    constructor
    · intro h
      exact ⟨[], cs, rfl, rfl, rfl, h⟩
    · rintro ⟨ds, rest, rfl, hlen, _, hend⟩
      rw [List.length_eq_zero] at hlen
      subst hlen
      simpa using hend
  | succ n ih =>
    cases cs with
    | nil =>
      simp only [digitsThenEnd]
      constructor
      · intro h; exact absurd h (by simp)
      · rintro ⟨ds, rest, h, hlen, _, _⟩
        cases ds with
        | nil => simp at hlen
        | cons a as => simp at h
    | cons c cs' =>
      simp only [digitsThenEnd, Bool.and_eq_true, ih]
      constructor
      · rintro ⟨hc, ds, rest, rfl, hlen, hall, hend⟩
        exact ⟨c :: ds, rest, rfl, by simp [hlen], by simp [hc, hall], hend⟩
      · rintro ⟨ds, rest, h, hlen, hall, hend⟩
        cases ds with
        | nil => simp at hlen
        | cons a as =>
          obtain ⟨rfl, rfl⟩ : a = c ∧ cs' = as ++ rest := by
            constructor
            · exact (List.cons.injEq a (as ++ rest) c cs').mp h.symm |>.1
            · exact ((List.cons.injEq a (as ++ rest) c cs').mp h.symm |>.2).symm
          simp only [List.all_cons, Bool.and_eq_true] at hall
          exact ⟨hall.1, as, rest, rfl, by simpa using hlen, hall.2, hend⟩

/-- C4 (amended): `validate_student_id s` is true iff `s` is the two
characters `KJ` followed by exactly 8 Unicode decimal digits (the
character set of Python's `\d` in a `str` pattern, not only `0`-`9`),
optionally followed by one final newline character (the
trailing-newline behaviour of Python's `$` anchor). -/
theorem c4_validate_student_id (s : String) :
    validate_student_id s = true ↔
      ∃ ds : List Char, ds.length = 8 ∧ ds.all isPyDigit = true ∧
        (s.data = 'K' :: 'J' :: ds ∨ s.data = 'K' :: 'J' :: (ds ++ ['\n'])) := by
  unfold validate_student_id
  split
  case _ rest heq =>
    rw [digitsThenEnd_iff]
    constructor
    · rintro ⟨ds, r, rfl, hlen, hall, hend⟩
      rw [reDollarEnd_iff] at hend
      rcases hend with rfl | rfl
      · exact ⟨ds, hlen, hall, Or.inl (by simpa using heq)⟩
      · exact ⟨ds, hlen, hall, Or.inr heq⟩
    · rintro ⟨ds, hlen, hall, hform | hform⟩
      · rw [heq] at hform
        have hds : rest = ds := by simpa using hform
        exact ⟨ds, [], by simp [hds], hlen, hall, rfl⟩
      · rw [heq] at hform
        have hds : rest = ds ++ ['\n'] := by simpa using hform
        exact ⟨ds, ['\n'], hds, hlen, hall, rfl⟩
  case _ hne =>
    constructor
    · intro hf; simp at hf
    · rintro ⟨ds, hlen, hall, hform | hform⟩
      · exact absurd hform (by exact fun h => hne ds h)
      · exact absurd hform (by exact fun h => hne (ds ++ ['\n']) h)

/-! ## Claim C8: the age check -/

/-- C8: the age check accepts exactly the strings denoting (under
Python `int()` parsing) an integer between 11 and 18 inclusive; the
boundary values 11 and 18 are accepted, 10 and 19 rejected, and
non-numeric input is a validation failure (the check is a total
function into `Bool`, never an exception). -/
theorem c8_age_check :
    (∀ a : String, validate_age a = true ↔
        ∃ n : Int, parsePyInt a = some n ∧ 11 ≤ n ∧ n ≤ 18) ∧
    validate_age "11" = true ∧ validate_age "18" = true ∧
    validate_age "10" = false ∧ validate_age "19" = false ∧
    validate_age "twelve" = false ∧ validate_age "" = false :=
  ⟨validate_age_iff, by decide, by decide, by decide, by decide, by decide, by decide⟩

/-! ## Claim C9: `hash_password` is deterministic, 64 hex characters -/

/-- Lowercase hexadecimal digit characters (`0`-`9`, `a`-`f`). -/
def isHexDigitChar (c : Char) : Bool :=
  (48 ≤ c.toNat && c.toNat ≤ 57) || (97 ≤ c.toNat && c.toNat ≤ 102)

theorem digitChar_and15_hex (x : Nat) :
    isHexDigitChar (Nat.digitChar (x &&& 15)) = true := by
  have h : x &&& 15 < 16 := Nat.lt_succ_of_le Nat.and_le_right
  generalize hx : x &&& 15 = k at h
  interval_cases k <;> decide

theorem toHex8_hex (w : Nat) : ∀ c ∈ toHex8 w, isHexDigitChar c = true := by
  intro c hc
  simp only [toHex8, List.mem_cons, List.not_mem_nil, or_false] at hc
  rcases hc with rfl | rfl | rfl | rfl | rfl | rfl | rfl | rfl <;>
    exact digitChar_and15_hex _

theorem toHex8_len (w : Nat) : (toHex8 w).length = 8 := rfl

/-- C9: `hash_password` is deterministic (equal inputs give equal
digests) and its digest is always a string of exactly 64 lowercase
hexadecimal characters (the 256-bit SHA-256 value in hex). -/
theorem c9_hash_password (p : String) :
    hash_password p = hash_password p ∧
    (hash_password p).length = 64 ∧
    (∀ c ∈ (hash_password p).data, isHexDigitChar c = true) := by
  refine ⟨rfl, ?_, ?_⟩
  · show (hexOfState (sha256 (utf8Bytes p))).length = 64
    simp [hexOfState, List.length_append, toHex8_len]
  · intro c hc
    have hc' : c ∈ hexOfState (sha256 (utf8Bytes p)) := hc
    simp only [hexOfState, List.mem_append] at hc'
    rcases hc' with ((((((h | h) | h) | h) | h) | h) | h) | h <;>
      exact toHex8_hex _ c h

/-! ## Claim C10: all entry points strip their text fields -/

/-- C10: each authentication and registration entry point strips
leading/trailing whitespace from every text field first, so running any
of them on raw fields and on pre-stripped fields is indistinguishable
(in both the returned outcome and the resulting database). -/
theorem c10_strip_equivalence :
    (∀ db sid nm ag cl pw t1 t2, verify_student_login db sid nm ag cl pw t1 t2 =
        verify_student_login db (pyStrip sid) (pyStrip nm) (pyStrip ag) (pyStrip cl)
          (pyStrip pw) t1 t2) ∧
    (∀ db tid nm pw, verify_teacher_login db tid nm pw =
        verify_teacher_login db (pyStrip tid) (pyStrip nm) (pyStrip pw)) ∧
    (∀ ah pw, verify_admin_login ah pw = verify_admin_login ah (pyStrip pw)) ∧
    (∀ db sid nm ag cl pw t1 t2, register_student db sid nm ag cl pw t1 t2 =
        register_student db (pyStrip sid) (pyStrip nm) (pyStrip ag) (pyStrip cl)
          (pyStrip pw) t1 t2) ∧
    (∀ db tid nm pw t1 t2, register_teacher db tid nm pw t1 t2 =
        register_teacher db (pyStrip tid) (pyStrip nm) (pyStrip pw) t1 t2) := by
  refine ⟨fun db sid nm ag cl pw t1 t2 => ?_, fun db tid nm pw => ?_, fun ah pw => ?_,
    fun db sid nm ag cl pw t1 t2 => ?_, fun db tid nm pw t1 t2 => ?_⟩ <;>
    simp only [verify_student_login, verify_teacher_login, verify_admin_login,
      register_student, register_teacher, pyStrip_idem]

/-! ## Claim C6: duplicate-id registration changes nothing -/

/-- C6: registering a student whose (stripped) id is already present,
with fields that pass validation, reports a duplicate id and leaves the
database unchanged: the existing record is untouched, no student row is
inserted, and no admin-log entry is appended. -/
theorem c6_register_duplicate (db : DB) (sid nm ag cl pw t1 t2 : String)
    (h1 : validate_student_id (pyStrip sid) = true)
    (h2 : validate_name (pyStrip nm) = true)
    (h3 : validate_age (pyStrip ag) = true)
    (h4 : pyStrip cl ≠ "")
    (h5 : pyStrip pw ≠ "")
    (hdup : ∃ r ∈ db.students, r.student_id = pyStrip sid) :
    register_student db sid nm ag cl pw t1 t2 = (db, RegisterResult.duplicateId) := by
  have hsid : pyStrip sid ≠ "" := fun he => by
    rw [he] at h1; exact absurd h1 (by decide)
  have hnm : pyStrip nm ≠ "" := fun he => by
    rw [he] at h2; exact absurd h2 (by decide)
  have hag : pyStrip ag ≠ "" := fun he => by
    rw [he] at h3; exact absurd h3 (by decide)
  obtain ⟨n, hn, h11, h18⟩ := (validate_age_iff (pyStrip ag)).mp h3
  have hd : decide (11 ≤ n ∧ n ≤ 18) = true := decide_eq_true ⟨h11, h18⟩
  have hany : db.students.any (fun r => r.student_id == pyStrip sid) = true := by
    rcases hdup with ⟨r, hmem, hid⟩
    exact List.any_eq_true.mpr ⟨r, hmem, by simp [hid]⟩
  simp [register_student, register_student_core, hsid, hnm, hag, h4, h5, h1, h2,
    hn, hd, hany]

/-- A database with one registered student, used to instantiate the
hypotheses of the duplicate-registration theorem. -/
def c6DB : DB :=
  ⟨[⟨"KJ20240001", "Ann", 12, "7A", "h", "T0", none⟩], [], [], []⟩

theorem c6_register_duplicate_witness :
    (validate_student_id (pyStrip "KJ20240001") = true ∧
     validate_name (pyStrip "Bob") = true ∧
     validate_age (pyStrip "13") = true ∧
     pyStrip "8B" ≠ "" ∧ pyStrip "pw" ≠ "" ∧
     (∃ r ∈ c6DB.students, r.student_id = pyStrip "KJ20240001")) ∧
    register_student c6DB "KJ20240001" "Bob" "13" "8B" "pw" "T1" "T2" =
      (c6DB, RegisterResult.duplicateId) :=
  ⟨⟨by decide, by decide, by decide, by decide, by decide, by decide⟩,
   c6_register_duplicate c6DB "KJ20240001" "Bob" "13" "8B" "pw" "T1" "T2"
     (by decide) (by decide) (by decide) (by decide) (by decide) (by decide)⟩

/-! ## Claim C7: deleting a student, and what it leaves unchanged -/

/-- C7: deleting an existing student removes exactly that student's row
and exactly that student's attendance rows (all rows of every other
student remain), leaves the teachers table unchanged, and appends
exactly one admin-log entry. -/
theorem c7_delete_student (db : DB) (sid now : String)
    (hex : ∃ r ∈ db.students, r.student_id = sid) :
    (∀ r, r ∈ (delete_student db sid now).students ↔
        r ∈ db.students ∧ r.student_id ≠ sid) ∧
    (∀ r, r ∈ (delete_student db sid now).attendance ↔
        r ∈ db.attendance ∧ r.student_id ≠ sid) ∧
    (delete_student db sid now).teachers = db.teachers ∧
    (delete_student db sid now).admin_logs =
      db.admin_logs ++ [⟨"Delete Student", "Deleted student " ++ sid, now⟩] := by
  refine ⟨fun r => ?_, fun r => ?_, rfl, rfl⟩ <;>
    simp [delete_student, List.mem_filter]

/-- A database with two students, attendance rows for both, one teacher
and one admin-log entry, used to instantiate the deletion theorem. -/
def c7DB : DB :=
  ⟨[⟨"KJ00000001", "Ann", 12, "7A", "h1", "T0", none⟩,
    ⟨"KJ00000002", "Bob", 13, "8B", "h2", "T0", none⟩],
   [⟨"KJ00000001", "Ann", "7A", "2025-01-01 09:00:00", "Present"⟩,
    ⟨"KJ00000002", "Bob", "8B", "2025-01-01 09:05:00", "Present"⟩],
   [⟨"TJ00000001", "Carol Smith", "h3", "T0"⟩],
   [⟨"Register Student", "Registered student KJ00000001", "T0"⟩]⟩

theorem c7_delete_student_witness :
    (∃ r ∈ c7DB.students, r.student_id = "KJ00000001") ∧
    ((∀ r, r ∈ (delete_student c7DB "KJ00000001" "T9").students ↔
        r ∈ c7DB.students ∧ r.student_id ≠ "KJ00000001") ∧
     (∀ r, r ∈ (delete_student c7DB "KJ00000001" "T9").attendance ↔
        r ∈ c7DB.attendance ∧ r.student_id ≠ "KJ00000001") ∧
     (delete_student c7DB "KJ00000001" "T9").teachers = c7DB.teachers ∧
     (delete_student c7DB "KJ00000001" "T9").admin_logs =
       c7DB.admin_logs ++ [⟨"Delete Student", "Deleted student KJ00000001", "T9"⟩]) :=
  ⟨by decide, c7_delete_student c7DB "KJ00000001" "T9" (by decide)⟩

/-! ## Claim C2: registration and the class validator -/

/-- C2 (code bug): `register_student` never checks the class field
against `valid_classes` (the login path does, main.py line 425; the
registration path, lines 861-905, has no such check).  Registering with
the out-of-enumeration class "9Z" and otherwise valid fields therefore
succeeds and inserts the student row, where the claim (and spec §4.2)
require a validation failure and no insertion. -/
theorem c2_register_missing_class_check :
    validate_class "9Z" = false ∧
    register_student ⟨[], [], [], []⟩ "KJ20240001" "Alice" "12" "9Z" "pw" "T1" "T2" =
      (⟨[⟨"KJ20240001", "Alice", 12, "9Z", hash_password "pw", "T1", none⟩],
        [], [],
        [⟨"Register Student", "Registered student KJ20240001", "T2"⟩]⟩,
       RegisterResult.success) := by
  exact ⟨by decide, rfl⟩

/-! ## Claim C1: student authentication -/

/-- A stored student record. -/
def c1r1 : Student := ⟨"KJ00000001", "Ann", 12, "7A", hash_password "pw", "T0", none⟩

/-- A second stored student record that differs from `c1r1` only in its
(unique) student id. -/
def c1r2 : Student := ⟨"KJ00000002", "Ann", 12, "7A", hash_password "pw", "T0", none⟩

/-- A database holding both records (reachable by registering two
students with the same name, age, class and password). -/
def c1DB : DB := ⟨[c1r1, c1r2], [], [], []⟩

/-- C1 counterexample: quantified over every stored record, the claim's
mismatch half fails.  The validated tuple
`("KJ00000002", "Ann", "12", "7A", "pw")` mismatches the stored record
`c1r1` in a single field (the student id; name, age, class and password
hash all match `c1r1`), so the claim requires invalid credentials and
zero inserted attendance rows — but the tuple fully matches the other
record `c1r2`, so authentication succeeds and inserts one attendance
row. -/
theorem c1_counterexample :
    c1r1 ∈ c1DB.students ∧
    (validate_student_id "KJ00000002" = true ∧ validate_name "Ann" = true ∧
     validate_age "12" = true ∧ validate_class "7A" = true) ∧
    ("KJ00000002" ≠ c1r1.student_id ∧ "Ann" = c1r1.name ∧ (12 : Int) = c1r1.age ∧
     "7A" = c1r1.class_name ∧ hash_password "pw" = c1r1.password_hash) ∧
    (verify_student_login c1DB "KJ00000002" "Ann" "12" "7A" "pw" "T1" "T2").2 =
      StudentLoginResult.success ∧
    (verify_student_login c1DB "KJ00000002" "Ann" "12" "7A" "pw" "T1" "T2").1.attendance =
      [⟨"KJ00000002", "Ann", "7A", "T2", "Present"⟩] := by
  refine ⟨by decide, ⟨by decide, by decide, by decide, by decide⟩,
    ⟨by decide, rfl, rfl, rfl, rfl⟩, ?_, ?_⟩ <;> decide

/-- C1 (amended): for a validated five-tuple, if all five fields exactly
match some stored record (password compared by hash), authentication
succeeds, sets `last_login` of the student with that id, and appends
exactly one attendance row with status "Present"; if the tuple fails to
fully match every stored record — in particular whenever any single
field mismatches and no other record matches — authentication reports
invalid credentials and the database (hence the attendance table) is
unchanged. -/
theorem c1_authenticate (db : DB) (sid nm ag cl pw t1 t2 : String)
    (h1 : validate_student_id (pyStrip sid) = true)
    (h2 : validate_name (pyStrip nm) = true)
    (h3 : validate_class (pyStrip cl) = true)
    (h4 : pyStrip pw ≠ "")
    (n : Int)
    (h5 : parsePyInt (pyStrip ag) = some n)
    (h6 : 11 ≤ n) (h7 : n ≤ 18) :
    ((∃ r ∈ db.students,
        studentMatches r (pyStrip sid) (pyStrip nm) n (pyStrip cl)
          (hash_password (pyStrip pw)) = true) →
      verify_student_login db sid nm ag cl pw t1 t2 =
        ({ db with
            students := db.students.map (fun r =>
              if r.student_id == pyStrip sid then { r with last_login := some t1 }
              else r),
            attendance := db.attendance ++
              [⟨pyStrip sid, pyStrip nm, pyStrip cl, t2, "Present"⟩] },
         StudentLoginResult.success)) ∧
    ((∀ r ∈ db.students,
        studentMatches r (pyStrip sid) (pyStrip nm) n (pyStrip cl)
          (hash_password (pyStrip pw)) = false) →
      verify_student_login db sid nm ag cl pw t1 t2 =
        (db, StudentLoginResult.invalidCredentials)) := by
  have hsid : pyStrip sid ≠ "" := fun he => by
    rw [he] at h1; exact absurd h1 (by decide)
  have hnm : pyStrip nm ≠ "" := fun he => by
    rw [he] at h2; exact absurd h2 (by decide)
  have hcl : pyStrip cl ≠ "" := fun he => by
    rw [he] at h3; exact absurd h3 (by decide)
  have hag : pyStrip ag ≠ "" := fun he => by
    rw [he] at h5
    rw [(by decide : parsePyInt "" = (none : Option Int))] at h5
    exact Option.noConfusion h5
  have hd : decide (11 ≤ n ∧ n ≤ 18) = true := decide_eq_true ⟨h6, h7⟩
  constructor
  · intro hmatch
    have hany : db.students.any (fun r =>
        studentMatches r (pyStrip sid) (pyStrip nm) n (pyStrip cl)
          (hash_password (pyStrip pw))) = true :=
      List.any_eq_true.mpr hmatch
    simp [verify_student_login, verify_student_login_core, hsid, hnm, hag, hcl, h4,
      h1, h2, h3, h5, hd, hany]
  · intro hmiss
    have hany : db.students.any (fun r =>
        studentMatches r (pyStrip sid) (pyStrip nm) n (pyStrip cl)
          (hash_password (pyStrip pw))) = false :=
      List.any_eq_false.mpr (fun r hr => by rw [hmiss r hr]; exact Bool.false_ne_true)
    simp [verify_student_login, verify_student_login_core, hsid, hnm, hag, hcl, h4,
      h1, h2, h3, h5, hd, hany]

theorem c1_authenticate_witness :
    (validate_student_id (pyStrip "KJ00000001") = true ∧
     validate_name (pyStrip "Ann") = true ∧
     validate_class (pyStrip "7A") = true ∧
     pyStrip "pw" ≠ "" ∧
     parsePyInt (pyStrip "12") = some 12 ∧ (11 : Int) ≤ 12 ∧ (12 : Int) ≤ 18) ∧
    (((∃ r ∈ c1DB.students,
        studentMatches r (pyStrip "KJ00000001") (pyStrip "Ann") 12 (pyStrip "7A")
          (hash_password (pyStrip "pw")) = true) →
      verify_student_login c1DB "KJ00000001" "Ann" "12" "7A" "pw" "T1" "T2" =
        ({ c1DB with
            students := c1DB.students.map (fun r =>
              if r.student_id == pyStrip "KJ00000001" then { r with last_login := some "T1" }
              else r),
            attendance := c1DB.attendance ++
              [⟨pyStrip "KJ00000001", pyStrip "Ann", pyStrip "7A", "T2", "Present"⟩] },
         StudentLoginResult.success)) ∧
     ((∀ r ∈ c1DB.students,
        studentMatches r (pyStrip "KJ00000001") (pyStrip "Ann") 12 (pyStrip "7A")
          (hash_password (pyStrip "pw")) = false) →
      verify_student_login c1DB "KJ00000001" "Ann" "12" "7A" "pw" "T1" "T2" =
        (c1DB, StudentLoginResult.invalidCredentials))) :=
  ⟨⟨by decide, by decide, by decide, by decide, by decide, by decide, by decide⟩,
   c1_authenticate c1DB "KJ00000001" "Ann" "12" "7A" "pw" "T1" "T2"
     (by decide) (by decide) (by decide) (by decide) 12 (by decide) (by decide) (by decide)⟩

/-! ## Claim C5: the attendance date query -/

theorem likeMatch_nil_pattern (s : List Char) : likeMatch [] s = s.isEmpty := rfl

theorem likeMatch_percent_only (s : List Char) : likeMatch ['%'] s = true := by
  have h : likeMatch ['%'] s = s.tails.any (fun t => likeMatch [] t) := by
    simp [likeMatch]
  rw [h]
  refine List.any_eq_true.mpr ⟨[], ?_, rfl⟩
  exact (List.mem_tails [] s).mpr List.nil_suffix

theorem isDateChar_ne_percent {c : Char} (h : isDateChar c = true) : ¬(c = '%') := by
  intro he; subst he; exact absurd h (by decide)

theorem isDateChar_ne_underscore {c : Char} (h : isDateChar c = true) : ¬(c = '_') := by
  intro he; subst he; exact absurd h (by decide)

theorem isDateChar_bounds {c : Char} (h : isDateChar c = true) :
    (48 ≤ c.toNat ∧ c.toNat ≤ 57) ∨ c.toNat = 45 := by
  simpa [isDateChar, Bool.or_eq_true, Bool.and_eq_true, decide_eq_true_eq,
    beq_iff_eq] using h

theorem isDateChar_fold {c : Char} (h : isDateChar c = true) :
    charFoldN c.toNat = c.toNat := by
  have hb := isDateChar_bounds h
  unfold charFoldN
  rw [if_neg (by omega)]

theorem isDateChar_fold_inj {c : Char} (h : isDateChar c = true) (x : Char) :
    (charFoldN c.toNat == charFoldN x.toNat) = decide (x = c) := by
  have hb := isDateChar_bounds h
  by_cases hx : x = c
  · subst hx; simp
  · have hxc : x.toNat ≠ c.toNat := fun hh => hx (char_toNat_inj hh)
    have h2 : charFoldN x.toNat ≠ c.toNat := by
      unfold charFoldN
      by_cases hr : 65 ≤ x.toNat ∧ x.toNat ≤ 90
      · rw [if_pos hr]; omega
      · rw [if_neg hr]; exact hxc
    rw [isDateChar_fold h, decide_eq_false hx]
    exact beq_eq_false_iff_ne.mpr (fun hh => h2 hh.symm)

theorem likeMatch_datechar_nil {c : Char} (h : isDateChar c = true) (ps : List Char) :
    likeMatch (c :: ps) [] = false := by
  simp [likeMatch, isDateChar_ne_percent h]

theorem likeMatch_datechar_cons {c : Char} (h : isDateChar c = true) (ps : List Char)
    (x : Char) (s' : List Char) :
    likeMatch (c :: ps) (x :: s') = (decide (x = c) && likeMatch ps s') := by
  simp only [likeMatch]
  rw [if_neg (isDateChar_ne_percent h)]
  rw [if_neg (isDateChar_ne_underscore h)]
  rw [isDateChar_fold_inj h x]

theorem likeMatch_date_pattern (d : List Char) (hd : ∀ c ∈ d, isDateChar c = true) :
    ∀ s, likeMatch (d ++ ['%']) s = true ↔ ∃ t, s = d ++ t := by
  induction d with
  | nil =>
    intro s
    simp only [List.nil_append]
    rw [likeMatch_percent_only]
    exact ⟨fun _ => ⟨s, rfl⟩, fun _ => rfl⟩
  | cons c d' ih =>
    intro s
    have hc : isDateChar c = true := hd c (List.mem_cons_self c d')
    have hd' : ∀ a ∈ d', isDateChar a = true := fun a ha =>
      hd a (List.mem_cons_of_mem c ha)
    cases s with
    | nil =>
      rw [List.cons_append, likeMatch_datechar_nil hc]
      simp
    | cons x s' =>
      rw [List.cons_append, likeMatch_datechar_cons hc, Bool.and_eq_true,
        decide_eq_true_eq, ih hd' s']
      constructor
      · rintro ⟨rfl, t, rfl⟩; exact ⟨t, rfl⟩
      · rintro ⟨t, ht⟩
        injection ht with ht1 ht2
        exact ⟨ht1, t, ht2⟩

theorem append_exists_iff_take {s d : List Char} (h10 : d.length = 10) :
    (∃ t, s = d ++ t) ↔ s.take 10 = d := by
  constructor
  · rintro ⟨t, rfl⟩
    rw [← h10]; exact List.take_left d t
  · intro h
    exact ⟨s.drop 10, by rw [← h]; exact (List.take_append_drop 10 s).symm⟩

theorem charListLe_total : ∀ a b : List Char,
    charListLe a b = true ∨ charListLe b a = true
  | [], _ => Or.inl rfl
  | _ :: _, [] => Or.inr rfl
  | x :: as, y :: bs => by
    rcases Nat.lt_trichotomy x.toNat y.toNat with hlt | heq | hgt
    · exact Or.inl (by simp [charListLe, (char_lt_iff x y).mpr hlt])
    · have hxy : x = y := char_toNat_inj heq
      subst hxy
      rcases charListLe_total as bs with h | h
      · exact Or.inl (by simp [charListLe, h])
      · exact Or.inr (by simp [charListLe, h])
    · exact Or.inr (by simp [charListLe, (char_lt_iff y x).mpr hgt])

theorem charListLe_trans : ∀ a b c : List Char,
    charListLe a b = true → charListLe b c = true → charListLe a c = true
  | [], _, _, _, _ => rfl
  | _ :: _, [], _, h1, _ => absurd h1 (by simp [charListLe])
  | _ :: _, _ :: _, [], _, h2 => absurd h2 (by simp [charListLe])
  | x :: as, y :: bs, z :: cs, h1, h2 => by
    simp only [charListLe, Bool.or_eq_true, Bool.and_eq_true, decide_eq_true_eq,
      beq_iff_eq] at h1 h2 ⊢
    rcases h1 with h1 | ⟨rfl, h1⟩
    · rcases h2 with h2 | ⟨rfl, _⟩
      · exact Or.inl ((char_lt_iff x z).mpr
          (Nat.lt_trans ((char_lt_iff x y).mp h1) ((char_lt_iff y z).mp h2)))
      · exact Or.inl h1
    · rcases h2 with h2 | ⟨rfl, h2⟩
      · exact Or.inl h2
      · exact Or.inr ⟨rfl, charListLe_trans as bs cs h1 h2⟩

instance : IsTotal AttendanceRow loginTimeDesc :=
  ⟨fun a b => charListLe_total b.login_time.data a.login_time.data⟩

instance : IsTrans AttendanceRow loginTimeDesc :=
  ⟨fun _ _ _ h1 h2 => charListLe_trans _ _ _ h2 h1⟩

/-- The `LIKE '<d>%'` test used by the query coincides, for a ten-character
date `d` of digits and hyphens, with "the calendar-date part of
`login_time` equals `d`". -/
theorem like_pred_eq_date (d : String) (h10 : d.data.length = 10)
    (hch : ∀ c ∈ d.data, isDateChar c = true) (r : AttendanceRow) :
    likeMatch (d.data ++ ['%']) r.login_time.data =
      (dateOfTimestamp r.login_time == d) := by
  rw [← Bool.coe_iff_coe]
  rw [likeMatch_date_pattern d.data hch, append_exists_iff_take h10]
  rw [beq_iff_eq, String.ext_iff]
  exact Iff.rfl

/-- C5: for a well-formed date string `d` (ten digit/hyphen characters),
the query returns exactly the attendance rows whose login_time's
calendar-date part equals `d` (as a permutation of the filtered table),
in order of descending `login_time`, and returns the empty list when no
row's date part equals `d`. -/
theorem c5_query_attendance_for_date (att : List AttendanceRow) (d : String)
    (h10 : d.data.length = 10) (hch : ∀ c ∈ d.data, isDateChar c = true) :
    (query_attendance_for_date att d).Perm
        (att.filter (fun r => dateOfTimestamp r.login_time == d)) ∧
    (query_attendance_for_date att d).Sorted loginTimeDesc ∧
    ((∀ r ∈ att, dateOfTimestamp r.login_time ≠ d) →
      query_attendance_for_date att d = []) := by
  have hf : att.filter (fun r => likeMatch (d.data ++ ['%']) r.login_time.data) =
      att.filter (fun r => dateOfTimestamp r.login_time == d) :=
    List.filter_congr (fun r _ => like_pred_eq_date d h10 hch r)
  refine ⟨?_, ?_, ?_⟩
  · unfold query_attendance_for_date
    rw [hf]
    exact List.perm_insertionSort loginTimeDesc _
  · exact List.sorted_insertionSort loginTimeDesc _
  · intro hnone
    have hnil : att.filter (fun r => dateOfTimestamp r.login_time == d) = [] :=
      List.filter_eq_nil_iff.mpr (fun r hr => by simp [hnone r hr])
    unfold query_attendance_for_date
    rw [hf, hnil]
    rfl

/-- Attendance rows over two calendar dates, out of time order, used to
instantiate the query theorem. -/
def c5Att : List AttendanceRow :=
  [⟨"KJ00000001", "Ann", "7A", "2024-01-01 09:00:00", "Present"⟩,
   ⟨"KJ00000002", "Bob", "7B", "2024-01-02 08:00:00", "Present"⟩,
   ⟨"KJ00000003", "Cal", "7C", "2024-01-02 09:30:00", "Present"⟩]

theorem c5_query_attendance_witness :
    (("2024-01-02" : String).data.length = 10 ∧
     (∀ c ∈ ("2024-01-02" : String).data, isDateChar c = true)) ∧
    ((query_attendance_for_date c5Att "2024-01-02").Perm
        (c5Att.filter (fun r => dateOfTimestamp r.login_time == "2024-01-02")) ∧
     (query_attendance_for_date c5Att "2024-01-02").Sorted loginTimeDesc ∧
     ((∀ r ∈ c5Att, dateOfTimestamp r.login_time ≠ "2024-01-02") →
        query_attendance_for_date c5Att "2024-01-02" = [])) :=
  ⟨⟨by decide, by decide⟩,
   c5_query_attendance_for_date c5Att "2024-01-02" (by decide) (by decide)⟩

end KJSchool
